import Mathlib

/-
Verification of the rate-limiting tester (src/main.py) as a shallow
embedding.  HTTP effects are modelled by passing the outcome of each
attempted exchange explicitly; wall-clock time is passed explicitly to
the pacing computation; printing is modelled as the list of lines the
reporter emits to standard output.
-/

/-- An HTTP response as the client sees it: status code plus headers
(modelled as an association list; `requests` keys are case-insensitive,
we look keys up at their canonical capitalization). -/
structure Response where
  status_code : Nat
  headers : List (String × String)
deriving DecidableEq

/-- `headers.get(k)`: value of the first header named `k`, `none` when the
header is absent. -/
def headersGet (hs : List (String × String)) (k : String) : Option String :=
  (hs.find? (fun p => p.1 == k)).map Prod.snd

/-- Outcome of one `session.get` call (line 44): either the exchange
completed with some response, or a `requests.exceptions.RequestException`
(timeout, connection error, ...) was raised, carrying its message. -/
inductive Outcome where
  | response (r : Response)
  | exception (msg : String)
deriving DecidableEq

/-- Condition under which `requests`' `Response.raise_for_status` raises
`HTTPError`: a 4xx or 5xx status code. -/
def raise_for_status_raises (status : Nat) : Bool :=
  decide (400 ≤ status) && decide (status < 600)

/-- `send_request` (lines 36-49): performs the GET, calls
`response.raise_for_status()` (line 45) and returns the response; every
raised `RequestException` — the `HTTPError` from `raise_for_status`
included — is caught and `None` is returned. -/
def send_request (o : Outcome) : Option Response :=
  match o with
  | .response r =>
      if raise_for_status_raises r.status_code then none else some r
  | .exception _ => none

/-- Truthiness of a `requests.Response`: its `__bool__` returns `self.ok`,
which is `status_code < 400`.  `if not response:` (line 62) and
`if response:` (line 89) test this. -/
def response_truthy (r : Response) : Bool :=
  decide (r.status_code < 400)

/-- Truthiness of an optional response: `None` is falsy, a response is as
truthy as `response_truthy` says. -/
def opt_response_truthy : Option Response → Bool
  | none => false
  | some r => response_truthy r

/-- The dictionary `analyze_response` builds (lines 65-76), as a
fixed-shape record: one field per key, in insertion order. -/
structure ResponseRecord where
  status_code : Nat
  x_ratelimit_limit : Option String
  x_ratelimit_remaining : Option String
  x_ratelimit_reset : Option String
  retry_after : Option String
  content_length : Option String
deriving DecidableEq

/-- `analyze_response` (lines 51-76): `if not response: return None`
(Python truthiness of a `requests.Response`, see `response_truthy`),
otherwise extract the status code and the five headers via
`headers.get`. -/
def analyze_response : Option Response → Option ResponseRecord
  | none => none
  | some r =>
      if response_truthy r then
        some { status_code := r.status_code
               x_ratelimit_limit := headersGet r.headers "X-RateLimit-Limit"
               x_ratelimit_remaining := headersGet r.headers "X-RateLimit-Remaining"
               x_ratelimit_reset := headersGet r.headers "X-RateLimit-Reset"
               retry_after := headersGet r.headers "Retry-After"
               content_length := headersGet r.headers "Content-Length" }
      else none

/-- Observable effects of one iteration of the loop in
`test_rate_limiting` (lines 87-95): the entry appended to `responses`,
whether the progress line `"Sent {i+1} requests"` was logged, and whether
the warning `"Request failed, skipping analysis."` was logged. -/
structure LoopStep where
  entry : Option ResponseRecord
  progressLogged : Bool
  warningLogged : Bool
deriving DecidableEq

/-- One iteration of the loop body (lines 88-95) for attempt index `i`
with HTTP outcome `o`: `response = self.send_request()`; on a truthy
response append `analyze_response(response)` and log progress when
`i % 10 == 0`; otherwise log the warning and append `None`. -/
def loopIter (i : Nat) (o : Outcome) : LoopStep :=
  let response := send_request o
  if opt_response_truthy response then
    { entry := analyze_response response
      progressLogged := i % 10 == 0
      warningLogged := false }
  else
    { entry := none, progressLogged := false, warningLogged := true }

/-- `test_rate_limiting` (lines 78-104), with the pacing sleeps elided
(they do not affect the collected list): for `i in range(max_requests)`
run the loop body on the i-th HTTP outcome and collect the appended
entries in order. -/
def test_rate_limiting (max_requests : Nat) (outcomes : Nat → Outcome) :
    List (Option ResponseRecord) :=
  (List.range max_requests).map (fun i => (loopIter i (outcomes i)).entry)

/-- The pacing computation of line 99:
`sleep_time = (i + 1) / self.requests_per_second - elapsed_time`, over
exact rational time.  (In the source, `requests_per_second = 0` raises
`ZeroDivisionError` here; callers of the lemmas assume a nonzero rate.) -/
def sleep_time (i : Nat) (requests_per_second elapsed_time : ℚ) : ℚ :=
  ((i : ℚ) + 1) / requests_per_second - elapsed_time

/-- The duration actually slept by lines 100-101: `sleep_time` when it is
positive, nothing otherwise. -/
def sleep_duration (i : Nat) (requests_per_second elapsed_time : ℚ) : ℚ :=
  if 0 < sleep_time i requests_per_second elapsed_time then
    sleep_time i requests_per_second elapsed_time
  else 0

/-- Python `str` of an optional header value, as the reporter prints it:
`None` for an absent value, the string itself otherwise. -/
def pyOptionStr : Option String → String
  | none => "None"
  | some s => s

/-- The classification of line 132: a record is blocked when
`result['status_code'] in [429, 503]`. -/
def isBlocked (r : ResponseRecord) : Bool :=
  r.status_code == 429 || r.status_code == 503

/-- The `"Request #{i+1}:"` heading printed at line 123 for 0-based
index `i`. -/
def requestHeading (i : Nat) : String :=
  "Request #" ++ toString (i + 1) ++ ":"

/-- The per-key detail lines of lines 129-130, one per dictionary entry in
insertion order. -/
def recordLines (r : ResponseRecord) : List String :=
  [ "  status_code: " ++ toString r.status_code
  , "  x_ratelimit_limit: " ++ pyOptionStr r.x_ratelimit_limit
  , "  x_ratelimit_remaining: " ++ pyOptionStr r.x_ratelimit_remaining
  , "  x_ratelimit_reset: " ++ pyOptionStr r.x_ratelimit_reset
  , "  retry_after: " ++ pyOptionStr r.retry_after
  , "  content_length: " ++ pyOptionStr r.content_length ]

/-- The per-request loop of `report_results` (lines 122-133) starting at
0-based index `i`: the lines printed, the final `blocked_count`, and the
final `error_count`.  A `None` entry prints `"  Request Failed."` and
bumps `error_count` (the `continue`); a record prints its key/value lines
and bumps `blocked_count` when `isBlocked`. -/
def reportItems : Nat → List (Option ResponseRecord) → List String × Nat × Nat
  | _, [] => ([], 0, 0)
  | i, o :: rest =>
      let rec_result := reportItems (i + 1) rest
      match o with
      | none =>
          (requestHeading i :: "  Request Failed." :: rec_result.1,
           rec_result.2.1, rec_result.2.2 + 1)
      | some r =>
          (requestHeading i :: (recordLines r ++ rec_result.1),
           (if isBlocked r then rec_result.2.1 + 1 else rec_result.2.1),
           rec_result.2.2)

/-- The verdict of line 141. -/
def verdict_detected : String := "Possible Rate Limiting Detected."

/-- The verdict of line 143. -/
def verdict_absent : String := "No Rate Limiting Appears to be in Effect."

/-- Observable effects of `report_results`: the lines printed to standard
output in order, the final values of its two counters, and whether the
`"No responses to report."` warning was logged. -/
structure Report where
  stdout : List String
  blocked_count : Nat
  error_count : Nat
  warned : Bool
deriving DecidableEq

/-- `report_results` (lines 106-143): `if not responses:` (an empty list
is falsy) log the warning and return having printed nothing; otherwise
print the banner, the per-request lines, the summary totals, and last the
verdict — `verdict_detected` when `blocked_count > 0`, else
`verdict_absent`. -/
def report_results (responses : List (Option ResponseRecord)) : Report :=
  if responses.isEmpty then
    { stdout := [], blocked_count := 0, error_count := 0, warned := true }
  else
    let items := reportItems 0 responses
    { stdout :=
        ("--- Rate Limiting Test Results ---" :: items.1
          ++ [ "--- Summary ---"
             , "Total Requests: " ++ toString responses.length
             , "Blocked Requests (429/503): " ++ toString items.2.1
             , "Failed Requests: " ++ toString items.2.2 ])
          ++ [if 0 < items.2.1 then verdict_detected else verdict_absent]
      blocked_count := items.2.1
      error_count := items.2.2
      warned := false }

/-- The default `User-Agent` of line 31. -/
def default_user_agent : String := "vuln-Rate-Limiting-Tester/1.0"

/-- The `User-Agent` resolution of line 31:
`user_agent if user_agent else "vuln-Rate-Limiting-Tester/1.0"` — `None`
and the empty string are falsy, any other string is used verbatim. -/
def resolve_user_agent : Option String → String
  | none => default_user_agent
  | some s => if s = "" then default_user_agent else s

/-- Python `s.startswith(p)`: `p` is a character-sequence prefix of
`s`. -/
def startswith (s p : String) : Bool :=
  p.data.isPrefixOf s.data

/-- The URL check of line 192:
`args.url.startswith(("http://", "https://"))` — a tuple argument means
any of the alternatives may match. -/
def url_scheme_ok (url : String) : Bool :=
  startswith url "http://" || startswith url "https://"

/-- The whole input validation `main` performs before constructing the
tester (lines 190-193): only the URL scheme is examined; none of the
numeric arguments is inspected, so they appear unused here exactly as in
the source. -/
def main_input_validation_error (url : String)
    (_requests_per_second _max_requests _timeout : Int) : Bool :=
  !(url_scheme_ok url)

/-- Observable outcome of `main`: whether the `ValueError` validation
path was taken (logged error plus `sys.exit(1)`), the process exit code,
and how many requests were attempted. -/
structure MainResult where
  validation_rejected : Bool
  exit_code : Nat
  requests_sent : Nat
deriving DecidableEq

/-- `main` (lines 180-210) with argument parsing and wall-clock effects
elided, assuming the run itself raises no unexpected exception (in the
source, `requests_per_second = 0` would raise `ZeroDivisionError` at
line 99 mid-run; a negative rate completes normally since the sleep is
skipped): a URL failing validation exits 1 with no request attempted;
otherwise the tester runs `max_requests.toNat` attempts (`range` of a
negative count is empty) and the process exits 0. -/
def py_main (url : String) (requests_per_second max_requests timeout : Int)
    (outcomes : Nat → Outcome) : MainResult :=
  if main_input_validation_error url requests_per_second max_requests timeout then
    { validation_rejected := true, exit_code := 1, requests_sent := 0 }
  else
    { validation_rejected := false, exit_code := 0
      requests_sent := (test_rate_limiting max_requests.toNat outcomes).length }

/-- Claim-side count: the entries the claims call blocked — non-absent
records whose status code is 429 or 503. -/
def countBlocked : List (Option ResponseRecord) → Nat
  | [] => 0
  | none :: rest => countBlocked rest
  | some r :: rest => (if isBlocked r then 1 else 0) + countBlocked rest

/-- Claim-side count: the absent entries. -/
def countFailed : List (Option ResponseRecord) → Nat
  | [] => 0
  | none :: rest => countFailed rest + 1
  | some _ :: rest => countFailed rest

/-- Claim-side predicate for C2, from the claim's words: the HTTP
exchange completed with a 2xx status. -/
def completed_2xx : Outcome → Bool
  | .response r => 200 ≤ r.status_code && r.status_code < 300
  | .exception _ => false

/-- Spec-side predicate for the amended C2: the wrapper call fails — the
exchange raised, or it completed with a 4xx/5xx status. -/
def wrapper_call_fails : Outcome → Bool
  | .response r => raise_for_status_raises r.status_code
  | .exception _ => true

/-- A concrete blocked record: a 429 response carrying `Retry-After`. -/
def sample_blocked_record : ResponseRecord :=
  { status_code := 429
    x_ratelimit_limit := none
    x_ratelimit_remaining := none
    x_ratelimit_reset := none
    retry_after := some "30"
    content_length := none }

/-- A concrete run result: one blocked record followed by one failed
attempt. -/
def sample_results : List (Option ResponseRecord) :=
  [some sample_blocked_record, none]

/-- C1: for every configuration, `test_rate_limiting` terminates after
exactly `max_requests` attempts — whatever the outcomes, even all
failures — returning a list of length `max_requests` in which attempt `i`
contributed exactly the one entry its loop iteration appended. -/
theorem test_rate_limiting_one_entry_per_attempt (max_requests : Nat)
    (outcomes : Nat → Outcome) :
    (test_rate_limiting max_requests outcomes).length = max_requests ∧
    ∀ i : Nat, (test_rate_limiting max_requests outcomes)[i]? =
      if i < max_requests then some (loopIter i (outcomes i)).entry
      else none := by
  constructor
  · simp [test_rate_limiting]
  · intro i
    by_cases h : i < max_requests
    · simp [test_rate_limiting, List.getElem?_range, h]
    · rw [if_neg h, List.getElem?_eq_none]
      simp [test_rate_limiting]
      omega

/-- C2, counterexample: the claim reads "failure exactly when the
exchange does not complete with a 2xx status", but a completed 304
response is not 2xx and is still returned as a success —
`raise_for_status` raises only on 4xx/5xx. -/
theorem send_request_not_2xx_cex :
    ¬ (((send_request (Outcome.response ⟨304, []⟩)).isNone = true) ↔
        completed_2xx (Outcome.response ⟨304, []⟩) = false) := by
  decide

/-- C2, amended: `send_request` returns the absent result exactly when
the exchange raised a `RequestException` (timeout, connection error, ...)
or completed with a 4xx/5xx status (429 and 503 included); a completed
response with any other status — 2xx, but also 1xx/3xx such as 304 — is
returned as a success. -/
theorem send_request_failure_iff (o : Outcome) :
    send_request o = none ↔ wrapper_call_fails o = true := by
  cases o with
  | response r =>
      cases hb : raise_for_status_raises r.status_code <;>
        simp [send_request, wrapper_call_fails, hb]
  | exception msg => simp [send_request, wrapper_call_fails]

/-- C9: on the empty result list `report_results` takes the falsy-list
early return — it prints nothing to standard output, leaves both
counters at zero and only logs the warning. -/
theorem report_results_empty_prints_nothing :
    (report_results []).stdout = [] ∧ (report_results []).warned = true ∧
    (report_results []).blocked_count = 0 ∧
    (report_results []).error_count = 0 :=
  ⟨rfl, rfl, rfl, rfl⟩

/-- C10: both falsy `user_agent` values — `None` and the empty string —
fall back to the default `"vuln-Rate-Limiting-Tester/1.0"`, and every
non-empty string is used verbatim. -/
theorem resolve_user_agent_spec :
    resolve_user_agent none = default_user_agent ∧
    resolve_user_agent (some "") = default_user_agent ∧
    ∀ s : String, s ≠ "" → resolve_user_agent (some s) = s := by
  refine ⟨rfl, ?_, ?_⟩
  · simp [resolve_user_agent]
  · intro s hs
    simp [resolve_user_agent, hs]

/-- Witness for C10 at the concrete custom agent string. -/
theorem resolve_user_agent_witness :
    ("MyAgent/1.0" : String) ≠ "" ∧
    resolve_user_agent (some "MyAgent/1.0") = "MyAgent/1.0" :=
  ⟨by decide, resolve_user_agent_spec.2.2 "MyAgent/1.0" (by decide)⟩

/-- The counters of the reporter loop do not depend on the printing index
and agree with the claim-side counts. -/
theorem reportItems_counts (rs : List (Option ResponseRecord)) :
    ∀ i : Nat, (reportItems i rs).2.1 = countBlocked rs ∧
      (reportItems i rs).2.2 = countFailed rs := by
  induction rs with
  | nil => intro i; simp [reportItems, countBlocked, countFailed]
  | cons o rest ih =>
      intro i
      obtain ⟨h1, h2⟩ := ih (i + 1)
      cases o with
      | none => simp [reportItems, countBlocked, countFailed, h1, h2]
      | some r =>
          cases hb : isBlocked r <;>
            simp [reportItems, countBlocked, countFailed, hb, h1, h2] <;>
            omega

/-- C3, counterexample: on the empty list the claim's "otherwise" branch
fails — the blocked count is zero yet the "no rate limiting" verdict is
not printed, because `report_results` returns before printing anything. -/
theorem report_results_empty_verdict_cex :
    countBlocked [] = 0 ∧ verdict_absent ∉ (report_results []).stdout := by
  constructor
  · rfl
  · simp [report_results]

/-- C3, amended: for every nonempty result list, `report_results` counts
as blocked exactly the non-absent records with status 429 or 503, counts
as failed exactly the absent entries, and prints as its final line the
"rate limiting detected" verdict exactly when the blocked count is
positive, else the "no rate limiting" verdict.  (On the empty list it
prints nothing at all, the early return having fired.) -/
theorem report_results_counts_and_verdict
    (rs : List (Option ResponseRecord)) (h : rs ≠ []) :
    (report_results rs).blocked_count = countBlocked rs ∧
    (report_results rs).error_count = countFailed rs ∧
    (report_results rs).stdout.getLast? =
      some (if 0 < countBlocked rs then verdict_detected
            else verdict_absent) := by
  have hne : rs.isEmpty = false := by
    cases rs with
    | nil => exact absurd rfl h
    | cons a l => rfl
  obtain ⟨h1, h2⟩ := reportItems_counts rs 0
  refine ⟨?_, ?_, ?_⟩
  · simp [report_results, hne, h1]
  · simp [report_results, hne, h2]
  · simp only [report_results, hne, Bool.false_eq_true, if_false]
    rw [List.getLast?_concat, h1]

/-- Witness for C3 at a concrete nonempty run result. -/
theorem report_results_counts_witness :
    sample_results ≠ [] ∧
    ((report_results sample_results).blocked_count =
        countBlocked sample_results ∧
      (report_results sample_results).error_count =
        countFailed sample_results ∧
      (report_results sample_results).stdout.getLast? =
        some (if 0 < countBlocked sample_results then verdict_detected
              else verdict_absent)) :=
  ⟨by decide, report_results_counts_and_verdict sample_results (by decide)⟩

/-- C4: the code violates the claim — `main` validates only the URL, so a
configuration with `requests_per_second = -1` is not rejected; all five
requests are attempted, the pacing computation is reached (yielding no
sleep, since the computed sleep time is negative), and the process exits
0. -/
theorem negative_rate_not_rejected :
    main_input_validation_error "http://example.com" (-1) 5 5 = false ∧
    (py_main "http://example.com" (-1) 5 5
        (fun _ => Outcome.exception "timed out")).requests_sent = 5 ∧
    (py_main "http://example.com" (-1) 5 5
        (fun _ => Outcome.exception "timed out")).exit_code = 0 ∧
    sleep_duration 0 (-1) 0 = 0 := by
  refine ⟨by decide, by decide, by decide, ?_⟩
  have hst : sleep_time 0 (-1) 0 = -1 := by
    norm_num [sleep_time]
  norm_num [sleep_duration, hst]

/-- C5: at every attempt index `i` with positive rate `R`, the pacing
step targets an elapsed time of `(i+1)/R`, suspends for exactly
`target - actual` when the actual elapsed time falls short of the
target, and does not suspend at all otherwise. -/
theorem pacing_sleep_exact (i : Nat) (R actual : ℚ) (hR : 0 < R) :
    sleep_time i R actual = ((i : ℚ) + 1) / R - actual ∧
    (actual < ((i : ℚ) + 1) / R →
      sleep_duration i R actual = ((i : ℚ) + 1) / R - actual) ∧
    (((i : ℚ) + 1) / R ≤ actual → sleep_duration i R actual = 0) := by
  refine ⟨rfl, ?_, ?_⟩
  · intro hlt
    have hpos : 0 < sleep_time i R actual := sub_pos.mpr hlt
    unfold sleep_duration
    rw [if_pos hpos]
    rfl
  · intro hle
    have hnp : ¬ 0 < sleep_time i R actual := by
      rw [not_lt]
      exact sub_nonpos.mpr hle
    simp [sleep_duration, hnp]

/-- Witness for C5: with `R = 2` the first attempt targets elapsed time
`1/2`; at actual elapsed time `1/4` the loop sleeps exactly `1/4`. -/
theorem pacing_sleep_witness :
    (0 : ℚ) < 2 ∧
    sleep_duration 0 2 (1/4) = (((0 : Nat) : ℚ) + 1) / 2 - 1/4 :=
  ⟨by norm_num,
   (pacing_sleep_exact 0 2 (1/4) (by norm_num)).2.1 (by norm_num)⟩

/-- C6, counterexample: attempt index 0 is a multiple of 10, yet when the
attempt fails no progress diagnostic is emitted — the `Sent {i+1}
requests` log sits inside the success branch. -/
theorem progress_skipped_on_failure_cex :
    0 % 10 = 0 ∧
    (loopIter 0 (Outcome.exception "timed out")).progressLogged = false := by
  decide

/-- C6, amended: the loop emits the progress diagnostic for attempt `i`
exactly when `i` is a multiple of 10 AND the attempt produced a truthy
response; failed attempts log no progress even at multiples of 10. -/
theorem progress_iff_multiple_of_ten_and_success (i : Nat) (o : Outcome) :
    (loopIter i o).progressLogged =
      ((i % 10 == 0) && opt_response_truthy (send_request o)) := by
  cases ht : opt_response_truthy (send_request o) <;> simp [loopIter, ht]

/-- C7: a URL failing the scheme check makes `main` take the `ValueError`
path — exit status 1, no request attempted — and a URL passing it is
never rejected by validation, whatever the numeric arguments. -/
theorem url_validation_iff (url : String) (rps mr t : Int)
    (outcomes : Nat → Outcome) :
    (url_scheme_ok url = false →
      py_main url rps mr t outcomes =
        { validation_rejected := true, exit_code := 1, requests_sent := 0 }) ∧
    (url_scheme_ok url = true →
      (py_main url rps mr t outcomes).validation_rejected = false) := by
  constructor
  · intro h
    simp [py_main, main_input_validation_error, h]
  · intro h
    simp [py_main, main_input_validation_error, h]

/-- Witness for C7: an `ftp://` URL is rejected with exit 1 and zero
requests; an `https://` URL passes validation. -/
theorem url_validation_witness :
    py_main "ftp://example.com" 10 50 5 (fun _ => Outcome.exception "refused") =
      { validation_rejected := true, exit_code := 1, requests_sent := 0 } ∧
    (py_main "https://example.com" 10 50 5
        (fun _ => Outcome.exception "refused")).validation_rejected = false :=
  ⟨(url_validation_iff "ftp://example.com" 10 50 5
      (fun _ => Outcome.exception "refused")).1 (by decide),
   (url_validation_iff "https://example.com" 10 50 5
      (fun _ => Outcome.exception "refused")).2 (by decide)⟩

/-- C8, counterexample: `if not response:` tests `requests.Response`
truthiness, which is `status_code < 400` — so a completed 500 response,
`Retry-After` header and all, makes `analyze_response` return `None`
instead of a record: the function does have a failure path. -/
theorem analyze_response_falsy_cex :
    analyze_response (some ⟨500, [("Retry-After", "30")]⟩) = none := by
  decide

/-- C8, amended: for every truthy response — status below 400, which
covers every response `send_request` can hand over — `analyze_response`
returns a record with the response's status code and the five header
lookups, an absent header yielding an absent field; a falsy response
(status 400 or above) or an absent input yields `None` at the truthiness
guard. -/
theorem analyze_response_truthy_fields (r : Response)
    (h : r.status_code < 400) :
    analyze_response (some r) =
      some { status_code := r.status_code
             x_ratelimit_limit := headersGet r.headers "X-RateLimit-Limit"
             x_ratelimit_remaining :=
               headersGet r.headers "X-RateLimit-Remaining"
             x_ratelimit_reset := headersGet r.headers "X-RateLimit-Reset"
             retry_after := headersGet r.headers "Retry-After"
             content_length := headersGet r.headers "Content-Length" } := by
  simp [analyze_response, response_truthy, h]

/-- Witness for C8: a 200 response carrying `Retry-After: 30` yields a
record whose retry-after field is `"30"` and whose other header fields
are absent. -/
theorem analyze_response_truthy_witness :
    200 < 400 ∧
    analyze_response (some ⟨200, [("Retry-After", "30")]⟩) =
      some { status_code := 200
             x_ratelimit_limit := none
             x_ratelimit_remaining := none
             x_ratelimit_reset := none
             retry_after := some "30"
             content_length := none } :=
  ⟨by decide,
   analyze_response_truthy_fields ⟨200, [("Retry-After", "30")]⟩ (by decide)⟩
